import Mathlib

/-!
Shallow embedding of the C64 KRV (Kernal ROM / Video) Switcher firmware,
`src/Arduino/c64krvsw/c64krvsw.ino` (v1.1, the canonical revision).

The firmware's global variables become fields of `MachineState`; the
side-effecting calls (`digitalWrite`, `pinMode`, `delay`,
`delayMicroseconds`, `EEPROM.write`) become an explicit event list of type
`List Ev` returned alongside the new state.  The EEPROM content at the
three used offsets is mirrored in the state (`e0`, `e1`, `e2`).  The main
`loop()` body is split into its three blocks in source order: the
scan-liveness watchdog (lines 282-302), the RESTORE key processing
(lines 304-319) and the number-key processing (lines 321-365).
-/

namespace C64KRV

/-- Output-side pins of the sketch (inputs are modelled as function
arguments where read). -/
inductive Pin where
  | KSW_A13
  | KSW_A14
  | KSW_A15
  | NeN
  | PeN
  | C64RES
  | EXROMRES
  deriving DecidableEq, Repr

/-- Observable events emitted by the firmware: digital pin writes, pin
direction changes (`out = true` means OUTPUT), blocking delays, and EEPROM
writes. -/
inductive Ev where
  | dwrite (p : Pin) (level : Bool)
  | pmode (p : Pin) (out : Bool)
  | delayMs (ms : Nat)
  | delayUs (us : Nat)
  | eWrite (addr val : Nat)
  deriving DecidableEq, Repr

/-- `const int KMax = 8` : highest Kernal number. -/
def KMax : Nat := 8

/-- `const int KernalSlot = 0` : Kernal selection address in EEPROM. -/
def KernalSlot : Nat := 0

/-- `const int ScanActiveSlot = 1` : keyscan-active address in EEPROM. -/
def ScanActiveSlot : Nat := 1

/-- `const int NPModeSlot = 2` : NTSC/PAL mode address in EEPROM. -/
def NPModeSlot : Nat := 2

/-- `const int Default_Scan_Count = 10000` : loop ticks before
no-scan-activity recovery. -/
def Default_Scan_Count : Nat := 10000

/-- `const int Default_Restore_Count = 5000` : loop ticks of RESTORE hold
before reset. -/
def Default_Restore_Count : Nat := 5000

/-- `systemRESET()` (lines 169-178): assert host reset (C64RES HIGH, then
made INPUT with pullup keeping it HIGH), then assert peripheral reset
(EXROMRES LOW, then made OUTPUT, kept LOW). -/
def systemRESET : List Ev :=
  [ Ev.dwrite Pin.C64RES true
  , Ev.pmode Pin.C64RES false
  , Ev.dwrite Pin.C64RES true
  , Ev.dwrite Pin.EXROMRES false
  , Ev.pmode Pin.EXROMRES true
  , Ev.dwrite Pin.EXROMRES false ]

/-- `systemUNRESET()` (lines 181-193): 200ms buffer, release C64RES
(LOW, made OUTPUT), 300ms buffer, release EXROMRES (HIGH, made INPUT). -/
def systemUNRESET : List Ev :=
  [ Ev.delayMs 200
  , Ev.dwrite Pin.C64RES false
  , Ev.pmode Pin.C64RES true
  , Ev.dwrite Pin.C64RES false
  , Ev.delayMs 300
  , Ev.dwrite Pin.EXROMRES true
  , Ev.pmode Pin.EXROMRES false
  , Ev.dwrite Pin.EXROMRES true ]

/-- `SetAddressBits(byte addr)` (lines 196-208): drive A13/A14/A15 from
bits 0/1/2 of `addr`. -/
def SetAddressBits (addr : Nat) : List Ev :=
  [ (if addr &&& 1 = 0 then Ev.dwrite Pin.KSW_A13 false
     else Ev.dwrite Pin.KSW_A13 true)
  , (if addr &&& 2 = 0 then Ev.dwrite Pin.KSW_A14 false
     else Ev.dwrite Pin.KSW_A14 true)
  , (if addr &&& 4 = 0 then Ev.dwrite Pin.KSW_A15 false
     else Ev.dwrite Pin.KSW_A15 true) ]

/-- `SetVideoBits(byte addr)` (lines 211-223): pulse the selected mode
enable line HIGH for 500ms. `addr = 0` is PAL (PeN), otherwise NTSC (NeN). -/
def SetVideoBits (addr : Nat) : List Ev :=
  if addr = 0 then
    [ Ev.dwrite Pin.NeN false, Ev.dwrite Pin.PeN true
    , Ev.delayMs 500, Ev.dwrite Pin.PeN false ]
  else
    [ Ev.dwrite Pin.NeN true, Ev.dwrite Pin.PeN false
    , Ev.delayMs 500, Ev.dwrite Pin.NeN false ]

/-- The firmware's global mutable state (lines 95-109), plus a mirror of
the EEPROM bytes at offsets 0, 1, 2 (`e0`, `e1`, `e2`). -/
structure MachineState where
  kernal_num : Nat
  kernal_addr : Nat
  np_mode : Nat
  restore_found : Bool
  restore_counter : Nat
  key : Nat
  columns : Nat
  scan_counter : Nat
  scan_found : Bool
  scan_active : Nat
  numPressed : Bool
  numOdd : Bool
  colData : Nat
  e0 : Nat
  e1 : Nat
  e2 : Nat
  deriving DecidableEq, Repr

/-- `SwitchKernal()` (lines 226-238): reset, apply address bits for the
current `kernal_addr`, settle 2s, unreset, settle 2s; then reset the scan
countdown and set `scan_found` from `scan_active`. -/
def SwitchKernal (s : MachineState) : MachineState × List Ev :=
  ( { s with scan_counter := Default_Scan_Count
           , scan_found := if s.scan_active = 1 then false else true }
  , systemRESET ++ SetAddressBits s.kernal_addr ++ [Ev.delayMs 2000]
      ++ systemUNRESET ++ [Ev.delayMs 2000] )

/-- `SwitchVideo()` (lines 241-253): reset, apply video bits for the
current `np_mode`, settle 2s, unreset, settle 2s; then reset the scan
countdown and set `scan_found` from `scan_active`. -/
def SwitchVideo (s : MachineState) : MachineState × List Ev :=
  ( { s with scan_counter := Default_Scan_Count
           , scan_found := if s.scan_active = 1 then false else true }
  , systemRESET ++ SetVideoBits s.np_mode ++ [Ev.delayMs 2000]
      ++ systemUNRESET ++ [Ev.delayMs 2000] )

/-- `ISR_Row0()` (lines 256-265): if no event is pending, snapshot the
columns (`PINC & 0x1F`), note scan activity and odd-row parity, and mark
an event pending only when the snapshot is neither all-high nor all-low.
`pinc` is the raw Port C input register at interrupt time. -/
def ISR_Row0 (s : MachineState) (pinc : Nat) : MachineState :=
  if s.numPressed then s
  else
    let cd := pinc &&& 31
    let s1 := { s with colData := cd, scan_found := true, numOdd := true }
    if cd ≠ 31 ∧ cd ≠ 0 then { s1 with numPressed := true } else s1

/-- `ISR_Row3()` (lines 268-277): as `ISR_Row0` but records even-row
parity (`numOdd := false`). -/
def ISR_Row3 (s : MachineState) (pinc : Nat) : MachineState :=
  if s.numPressed then s
  else
    let cd := pinc &&& 31
    let s1 := { s with colData := cd, scan_found := true, numOdd := false }
    if cd ≠ 31 ∧ cd ≠ 0 then { s1 with numPressed := true } else s1

/-- The key decode of `loop()` (lines 323-331): first clear column bit in
the fixed order col7, col1, col2, col3, col4 picks an odd digit
1/3/5/7/9; on the even row the digit is incremented; 10 wraps to 0.
`prevKey` is the value of the global `key` on entry (always 128 in the
running program, reset at line 363). -/
def computeKey (prevKey colData : Nat) (numOdd : Bool) : Nat :=
  let k :=
    if colData &&& 16 = 0 then 1
    else if colData &&& 1 = 0 then 3
    else if colData &&& 2 = 0 then 5
    else if colData &&& 4 = 0 then 7
    else if colData &&& 8 = 0 then 9
    else prevKey
  let k := if numOdd then k else k + 1
  if k = 10 then 0 else k

/-- Scan-liveness watchdog block of `loop()` (lines 282-302). `pinc` is
the Port C input register sampled this tick. -/
def scanBlock (s : MachineState) (pinc : Nat) : MachineState × List Ev :=
  if s.scan_found then (s, [])
  else
    let cols := pinc &&& 31
    let s1 := { s with columns := cols }
    if cols ≠ 31 then ({ s1 with scan_found := true }, [])
    else if s1.scan_counter > 0 then
      ({ s1 with scan_counter := s1.scan_counter - 1 }, [Ev.delayUs 33])
    else if s1.scan_active = 1 then
      let s2 := { s1 with kernal_num := 1, kernal_addr := 0, e0 := 1 }
      let r := SwitchKernal s2
      (r.1, Ev.eWrite KernalSlot 1 :: r.2)
    else
      ({ s1 with scan_counter := Default_Scan_Count, scan_found := true }, [])

/-- RESTORE key block of `loop()` (lines 305-319). `restoreHigh` is the
digital read of the RESTORE pin (HIGH means not pressed). -/
def restoreBlock (s : MachineState) (restoreHigh : Bool) : MachineState × List Ev :=
  if restoreHigh then
    ({ s with restore_found := false, restore_counter := Default_Restore_Count }, [])
  else
    let s1 := { s with restore_found := true }
    if s1.restore_counter > 0 then
      ({ s1 with restore_counter := s1.restore_counter - 1 }, [])
    else
      ({ s1 with scan_counter := Default_Scan_Count, scan_found := false }
      , systemRESET ++ [Ev.delayMs 2000] ++ systemUNRESET)

/-- Number-key block of `loop()` (lines 322-362): decode the pending
snapshot and, when RESTORE is held and the digit is in range, dispatch the
switch/case (default = digits 1-8, case 0, case 9). -/
def keyBlock (s : MachineState) : MachineState × List Ev :=
  if s.numPressed then
    let k := computeKey s.key s.colData s.numOdd
    let s1 := { s with key := k }
    if s1.restore_found ∧ k ≤ 9 then
      match k with
      | 0 =>
        let s2 := { s1 with scan_active := 0, kernal_num := 1, kernal_addr := 0
                          , e0 := 1, e1 := 0 }
        let r := SwitchKernal s2
        (r.1, Ev.eWrite KernalSlot 1 :: Ev.eWrite ScanActiveSlot 0 :: r.2)
      | 9 =>
        let m := if s1.np_mode = 1 then 0 else 1
        let s2 := { s1 with np_mode := m, e2 := m }
        let r := SwitchVideo s2
        (r.1, Ev.eWrite NPModeSlot m :: r.2)
      | _ =>
        let s2 := { s1 with scan_active := 1, kernal_num := k, kernal_addr := k - 1
                          , e0 := k, e1 := 1 }
        let r := SwitchKernal s2
        (r.1, Ev.eWrite KernalSlot k :: Ev.eWrite ScanActiveSlot 1 :: r.2)
    else (s1, [])
  else (s, [])

/-- End of `loop()` (lines 363-365): reset `key`, clear the pending flag,
tick delay. -/
def loopTail (s : MachineState) : MachineState × List Ev :=
  ({ s with key := 128, numPressed := false }, [Ev.delayUs 1000])

/-- One full `loop()` iteration, composing the three blocks and the tail
in source order. -/
def loopStep (s : MachineState) (pinc : Nat) (restoreHigh : Bool) :
    MachineState × List Ev :=
  let a := scanBlock s pinc
  let b := restoreBlock a.1 restoreHigh
  let c := keyBlock b.1
  let d := loopTail c.1
  (d.1, a.2 ++ b.2 ++ c.2 ++ d.2)

/-- Result of the boot-time EEPROM load-and-validate section of `setup()`
(lines 129-148): the validated in-memory values, the resulting store
bytes, and the EEPROM writes performed. -/
structure BootVals where
  kernal_num : Nat
  scan_active : Nat
  np_mode : Nat
  e0 : Nat
  e1 : Nat
  e2 : Nat
  writes : List Ev
  deriving DecidableEq, Repr

/-- Boot-time validation (lines 129-148): clamp an out-of-range persisted
Kernal number (outside 1..KMax) to 1, an out-of-range scan-active byte
(outside 0/1) to 1 and an out-of-range video mode byte (outside 0/1) to 1,
rewriting the store in exactly the out-of-range cases. `p0`, `p1`, `p2`
are the persisted bytes at offsets 0, 1, 2. -/
def setupValidate (p0 p1 p2 : Nat) : BootVals :=
  { kernal_num := if p0 < 1 ∨ p0 > KMax then 1 else p0
  , scan_active := if p1 ≠ 0 ∧ p1 ≠ 1 then 1 else p1
  , np_mode := if p2 ≠ 0 ∧ p2 ≠ 1 then 1 else p2
  , e0 := if p0 < 1 ∨ p0 > KMax then 1 else p0
  , e1 := if p1 ≠ 0 ∧ p1 ≠ 1 then 1 else p1
  , e2 := if p2 ≠ 0 ∧ p2 ≠ 1 then 1 else p2
  , writes :=
      (if p0 < 1 ∨ p0 > KMax then [Ev.eWrite KernalSlot 1] else [])
        ++ (if p1 ≠ 0 ∧ p1 ≠ 1 then [Ev.eWrite ScanActiveSlot 1] else [])
        ++ (if p2 ≠ 0 ∧ p2 ≠ 1 then [Ev.eWrite NPModeSlot 1] else []) }

/-- Electrical state of the output pins: driven level and direction
(`output p = true` means the pin is configured OUTPUT). -/
structure PinConf where
  level : Pin → Bool
  output : Pin → Bool

/-- Effect of one event on the pin configuration: `digitalWrite` updates
the level, `pinMode` the direction, delays and EEPROM writes change
nothing. -/
def stepEv (c : PinConf) (e : Ev) : PinConf :=
  match e with
  | Ev.dwrite p b => { c with level := fun q => if q = p then b else c.level q }
  | Ev.pmode p o => { c with output := fun q => if q = p then o else c.output q }
  | _ => c

/-- Run a list of events over a pin configuration. -/
def runEvs (c : PinConf) (l : List Ev) : PinConf := l.foldl stepEv c

/-- Steady-state pin configuration while the C64 runs normally (after any
completed `systemUNRESET`): C64RES driven LOW as OUTPUT, EXROMRES released
HIGH as INPUT, the five other control pins OUTPUT. -/
def runningConf : PinConf :=
  { level := fun p => match p with
      | Pin.EXROMRES => true
      | _ => false
  , output := fun p => match p with
      | Pin.EXROMRES => false
      | _ => true }

/-- The host reset is asserted when the C64RES pin is HIGH (the external
transistor inverts it onto the C64 RESET line, see Note 1 of the sketch);
the peripheral (EXROM) reset is active-low. `outputIffAsserted` is the
spec's tri-state discipline: each reset line is configured OUTPUT exactly
while it is asserted. -/
def outputIffAsserted (c : PinConf) : Prop :=
  (c.output Pin.C64RES = true ↔ c.level Pin.C64RES = true) ∧
  (c.output Pin.EXROMRES = true ↔ c.level Pin.EXROMRES = false)

instance (c : PinConf) : Decidable (outputIffAsserted c) := by
  unfold outputIffAsserted; infer_instance

/-- The events of a `SwitchKernal` run during which both reset lines stay
asserted: the address-bit writes, the 2000ms settle, and the 200ms buffer
at the start of `systemUNRESET` (the next event releases C64RES). -/
def bothAssertedPhase (addr : Nat) : List Ev :=
  SetAddressBits addr ++ [Ev.delayMs 2000, Ev.delayMs 200]

/-- Between two consumed key events the loop tail resets `key` and clears
the pending flag, and a new interrupt recaptures a snapshot: the state a
following `loop()` iteration sees when its pending event has snapshot `cd`
and parity `od`. -/
def recapture (s : MachineState) (cd : Nat) (od : Bool) : MachineState :=
  { s with key := 128, numPressed := true, colData := cd, numOdd := od }

/-- State used to instantiate the digit-5 gesture: event pending with
snapshot 29 on the odd row, RESTORE held. -/
def sPress5 : MachineState :=
  { kernal_num := 1, kernal_addr := 0, np_mode := 1, restore_found := true
  , restore_counter := 5000, key := 128, columns := 31, scan_counter := 10000
  , scan_found := true, scan_active := 1, numPressed := true, numOdd := true
  , colData := 29, e0 := 1, e1 := 1, e2 := 1 }

/-- State used to instantiate the watchdog timeout: WATCHING with the
countdown elapsed and scanning active. -/
def sTimeout : MachineState :=
  { kernal_num := 3, kernal_addr := 2, np_mode := 1, restore_found := false
  , restore_counter := 5000, key := 128, columns := 31, scan_counter := 0
  , scan_found := false, scan_active := 1, numPressed := false, numOdd := true
  , colData := 31, e0 := 3, e1 := 1, e2 := 1 }

/-! ## Theorems -/

set_option synthInstance.maxSize 1024 in
/-- C6: for every column snapshot that passed the pending filter (not
all-high, not all-low) and every row parity, the main-loop decode is total
and yields a digit in [0,9]; the first clear bit in the fixed priority
order col7, col1, col2, col3, col4 selects the odd digit 1/3/5/7/9, the
even row increments it, and a resulting 10 wraps to 0 — so even a
multi-bit snapshot decodes to some digit. -/
theorem computeKey_total_decode :
    ∀ c, c < 32 → c ≠ 31 → c ≠ 0 →
      computeKey 128 c true ≤ 9 ∧
      computeKey 128 c false ≤ 9 ∧
      computeKey 128 c true % 2 = 1 ∧
      computeKey 128 c false = (computeKey 128 c true + 1) % 10 ∧
      (c &&& 16 = 0 → computeKey 128 c true = 1) ∧
      (¬c &&& 16 = 0 → c &&& 1 = 0 → computeKey 128 c true = 3) ∧
      (¬c &&& 16 = 0 → ¬c &&& 1 = 0 → c &&& 2 = 0 →
        computeKey 128 c true = 5) ∧
      (¬c &&& 16 = 0 → ¬c &&& 1 = 0 → ¬c &&& 2 = 0 → c &&& 4 = 0 →
        computeKey 128 c true = 7) ∧
      (¬c &&& 16 = 0 → ¬c &&& 1 = 0 → ¬c &&& 2 = 0 → ¬c &&& 4 = 0 →
        c &&& 8 = 0 → computeKey 128 c true = 9) := by
  intro c hc
  interval_cases c <;> decide

/-- Witness for `computeKey_total_decode` at the snapshot 29 (column 2
low, the "5" key). -/
theorem computeKey_total_decode_witness :
    computeKey 128 29 true ≤ 9 ∧ computeKey 128 29 true % 2 = 1 :=
  ⟨(computeKey_total_decode 29 (by decide) (by decide) (by decide)).1,
   (computeKey_total_decode 29 (by decide) (by decide) (by decide)).2.2.1⟩

/-- C1: a consumed pending key event decoding to a digit d in [1,8] with
RESTORE held sets Selection (kernal number) to d and ScanActive to 1,
persists them at store offsets 0 and 1, drives the three address lines
with the 3-bit value d - 1, and runs the Reset Sequencer. -/
theorem keyBlock_digit_selects_bank (s : MachineState) (d : Nat)
    (hn : s.numPressed = true) (hr : s.restore_found = true)
    (hkey : s.key = 128)
    (hd : computeKey 128 s.colData s.numOdd = d)
    (h1 : 1 ≤ d) (h8 : d ≤ 8) :
    (keyBlock s).1.scan_active = 1 ∧
    (keyBlock s).1.kernal_num = d ∧
    (keyBlock s).1.kernal_addr = d - 1 ∧
    (keyBlock s).1.e0 = d ∧
    (keyBlock s).1.e1 = 1 ∧
    (keyBlock s).2 = Ev.eWrite KernalSlot d :: Ev.eWrite ScanActiveSlot 1 ::
      (systemRESET ++ SetAddressBits (d - 1) ++ [Ev.delayMs 2000]
        ++ systemUNRESET ++ [Ev.delayMs 2000]) := by
  have hk : computeKey s.key s.colData s.numOdd = d := by rw [hkey]; exact hd
  interval_cases d <;>
    simp +decide [keyBlock, hn, hr, hk, SwitchKernal]

/-- Witness for `keyBlock_digit_selects_bank`: the digit-5 gesture from
`sPress5`. -/
theorem keyBlock_digit_selects_bank_witness :
    (keyBlock sPress5).1.kernal_num = 5 ∧ (keyBlock sPress5).1.e0 = 5 ∧
    (keyBlock sPress5).1.e1 = 1 := by
  have h := keyBlock_digit_selects_bank sPress5 5 rfl rfl rfl (by decide)
    (by decide) (by decide)
  exact ⟨h.2.1, h.2.2.2.1, h.2.2.2.2.1⟩

/-- C2: with ScanActive on, the watchdog WATCHING (scan_found false) and
no column asserted while the countdown stands at zero, the tick forces
Selection back to 1, leaves ScanActive unchanged, rewrites store offset 0
with 1, runs the Reset Sequencer with bank 1's address bits, and re-enters
WATCHING with the countdown restored to its default. -/
theorem scanBlock_timeout_recovers (s : MachineState) (pinc : Nat)
    (hf : s.scan_found = false) (hcols : pinc &&& 31 = 31)
    (hc : s.scan_counter = 0) (ha : s.scan_active = 1) :
    (scanBlock s pinc).1.kernal_num = 1 ∧
    (scanBlock s pinc).1.kernal_addr = 0 ∧
    (scanBlock s pinc).1.scan_active = s.scan_active ∧
    (scanBlock s pinc).1.e0 = 1 ∧
    (scanBlock s pinc).1.e1 = s.e1 ∧
    (scanBlock s pinc).1.scan_found = false ∧
    (scanBlock s pinc).1.scan_counter = Default_Scan_Count ∧
    (scanBlock s pinc).2 = Ev.eWrite KernalSlot 1 ::
      (systemRESET ++ SetAddressBits 0 ++ [Ev.delayMs 2000]
        ++ systemUNRESET ++ [Ev.delayMs 2000]) := by
  simp +decide [scanBlock, hf, hcols, hc, ha, SwitchKernal]

/-- Witness for `scanBlock_timeout_recovers`: timeout from `sTimeout` with
all columns high. -/
theorem scanBlock_timeout_recovers_witness :
    (scanBlock sTimeout 31).1.kernal_num = 1 ∧
    (scanBlock sTimeout 31).1.scan_found = false := by
  have h := scanBlock_timeout_recovers sTimeout 31 rfl rfl rfl rfl
  exact ⟨h.1, h.2.2.2.2.2.1⟩

/-- C3: a consumed digit-0 gesture with RESTORE held sets Selection to 1
and ScanActive to 0 and persists both; and from any state in which
ScanActive is off, the watchdog block never triggers recovery — it emits
at most the tick delay, changes no selection or store byte, and a
countdown already at zero merely re-arms the counter and marks the
watchdog satisfied with no Reset Sequencer run. -/
theorem digit0_disables_watchdog (s t : MachineState) (pinc : Nat)
    (hn : s.numPressed = true) (hr : s.restore_found = true)
    (hkey : s.key = 128)
    (hd : computeKey 128 s.colData s.numOdd = 0)
    (ht : t.scan_active = 0) :
    ((keyBlock s).1.kernal_num = 1 ∧ (keyBlock s).1.scan_active = 0 ∧
     (keyBlock s).1.e0 = 1 ∧ (keyBlock s).1.e1 = 0 ∧
     (keyBlock s).2 = Ev.eWrite KernalSlot 1 :: Ev.eWrite ScanActiveSlot 0 ::
       (systemRESET ++ SetAddressBits 0 ++ [Ev.delayMs 2000]
         ++ systemUNRESET ++ [Ev.delayMs 2000])) ∧
    ((∀ e ∈ (scanBlock t pinc).2, e = Ev.delayUs 33) ∧
     (scanBlock t pinc).1.kernal_num = t.kernal_num ∧
     (scanBlock t pinc).1.kernal_addr = t.kernal_addr ∧
     (scanBlock t pinc).1.scan_active = 0 ∧
     (scanBlock t pinc).1.e0 = t.e0 ∧
     (scanBlock t pinc).1.e1 = t.e1 ∧
     (scanBlock t pinc).1.e2 = t.e2 ∧
     (t.scan_found = false → pinc &&& 31 = 31 → t.scan_counter = 0 →
       (scanBlock t pinc).1.scan_found = true ∧
       (scanBlock t pinc).1.scan_counter = Default_Scan_Count ∧
       (scanBlock t pinc).2 = [])) := by
  have hk : computeKey s.key s.colData s.numOdd = 0 := by rw [hkey]; exact hd
  constructor
  · simp +decide [keyBlock, hn, hr, hk, SwitchKernal]
  · by_cases h1 : t.scan_found
    · simp [scanBlock, h1, ht]
    · by_cases h2 : pinc &&& 31 = 31
      · by_cases h3 : 0 < t.scan_counter
        · have h3' : ¬ t.scan_counter = 0 := by omega
          simp [scanBlock, h1, h2, h3, ht, h3']
        · have h3' : t.scan_counter = 0 := by omega
          simp [scanBlock, h1, h2, h3', ht]
      · simp [scanBlock, h1, h2, ht]

/-- Witness for `digit0_disables_watchdog`: digit-0 gesture (snapshot 23,
even row, decoding 9 + 1 wrapped to 0) and a timed-out state with
scanning off. -/
theorem digit0_disables_watchdog_witness :
    (keyBlock { sPress5 with colData := 23, numOdd := false }).1.scan_active = 0 ∧
    (scanBlock { sTimeout with scan_active := 0 } 31).2 = [] := by
  have h := digit0_disables_watchdog { sPress5 with colData := 23, numOdd := false }
    { sTimeout with scan_active := 0 } 31 rfl rfl rfl (by decide) rfl
  exact ⟨h.1.2.1, (h.2.2.2.2.2.2.2.2 rfl rfl rfl).2.2⟩

/-- C4: a consumed pending key event processed while RESTORE is not held
leaves Selection, ScanActive, VideoMode and all three store bytes
unchanged, and triggers no Reset Sequencer run (no events at all). -/
theorem keyBlock_no_modifier_noop (s : MachineState)
    (hn : s.numPressed = true) (hr : s.restore_found = false) :
    (keyBlock s).1.kernal_num = s.kernal_num ∧
    (keyBlock s).1.kernal_addr = s.kernal_addr ∧
    (keyBlock s).1.scan_active = s.scan_active ∧
    (keyBlock s).1.np_mode = s.np_mode ∧
    (keyBlock s).1.e0 = s.e0 ∧
    (keyBlock s).1.e1 = s.e1 ∧
    (keyBlock s).1.e2 = s.e2 ∧
    (keyBlock s).2 = [] := by
  simp [keyBlock, hn, hr]

/-- Witness for `keyBlock_no_modifier_noop`: the digit-5 event with
RESTORE released. -/
theorem keyBlock_no_modifier_noop_witness :
    (keyBlock { sPress5 with restore_found := false }).1.kernal_num = 1 ∧
    (keyBlock { sPress5 with restore_found := false }).2 = [] := by
  have h := keyBlock_no_modifier_noop { sPress5 with restore_found := false }
    rfl rfl
  exact ⟨h.1, h.2.2.2.2.2.2.2⟩

/-- C5: boot-time validation yields Selection in [1,8], ScanActive in
{0,1} and VideoMode in {0,1}; each persisted byte out of its range is
replaced by 1 (the documented default) and rewritten to the store, and
each in-range byte is kept with no write to its offset. -/
theorem setupValidate_clamps (p0 p1 p2 : Nat)
    (h0 : p0 < 256) (h1 : p1 < 256) (h2 : p2 < 256) :
    (1 ≤ (setupValidate p0 p1 p2).kernal_num ∧
      (setupValidate p0 p1 p2).kernal_num ≤ 8) ∧
    ((setupValidate p0 p1 p2).scan_active = 0 ∨
      (setupValidate p0 p1 p2).scan_active = 1) ∧
    ((setupValidate p0 p1 p2).np_mode = 0 ∨
      (setupValidate p0 p1 p2).np_mode = 1) ∧
    (p0 < 1 ∨ p0 > 8 →
      (setupValidate p0 p1 p2).kernal_num = 1 ∧
      (setupValidate p0 p1 p2).e0 = 1 ∧
      Ev.eWrite KernalSlot 1 ∈ (setupValidate p0 p1 p2).writes) ∧
    (1 ≤ p0 → p0 ≤ 8 →
      (setupValidate p0 p1 p2).kernal_num = p0 ∧
      (setupValidate p0 p1 p2).e0 = p0 ∧
      ∀ v, Ev.eWrite KernalSlot v ∉ (setupValidate p0 p1 p2).writes) ∧
    (p1 ≠ 0 ∧ p1 ≠ 1 →
      (setupValidate p0 p1 p2).scan_active = 1 ∧
      (setupValidate p0 p1 p2).e1 = 1 ∧
      Ev.eWrite ScanActiveSlot 1 ∈ (setupValidate p0 p1 p2).writes) ∧
    (p1 = 0 ∨ p1 = 1 →
      (setupValidate p0 p1 p2).scan_active = p1 ∧
      (setupValidate p0 p1 p2).e1 = p1 ∧
      ∀ v, Ev.eWrite ScanActiveSlot v ∉ (setupValidate p0 p1 p2).writes) ∧
    (p2 ≠ 0 ∧ p2 ≠ 1 →
      (setupValidate p0 p1 p2).np_mode = 1 ∧
      (setupValidate p0 p1 p2).e2 = 1 ∧
      Ev.eWrite NPModeSlot 1 ∈ (setupValidate p0 p1 p2).writes) ∧
    (p2 = 0 ∨ p2 = 1 →
      (setupValidate p0 p1 p2).np_mode = p2 ∧
      (setupValidate p0 p1 p2).e2 = p2 ∧
      ∀ v, Ev.eWrite NPModeSlot v ∉ (setupValidate p0 p1 p2).writes) := by
  refine ⟨?_, ?_, ?_, fun hc => ?_, fun ha hb => ⟨?_, ?_, fun v => ?_⟩,
    fun hc => ?_, fun hc => ⟨?_, ?_, fun v => ?_⟩,
    fun hc => ?_, fun hc => ⟨?_, ?_, fun v => ?_⟩⟩ <;>
  · simp only [setupValidate]
    split_ifs <;>
      simp_all [KMax, KernalSlot, ScanActiveSlot, NPModeSlot] <;>
      omega

/-- Witness for `setupValidate_clamps` at persisted bytes (200, 7, 1):
out-of-range Selection clamped, out-of-range ScanActive clamped, in-range
VideoMode kept. -/
theorem setupValidate_clamps_witness :
    (setupValidate 200 7 1).kernal_num = 1 ∧
    (setupValidate 200 7 1).scan_active = 1 ∧
    (setupValidate 200 7 1).np_mode = 1 := by
  have h := setupValidate_clamps 200 7 1 (by decide) (by decide) (by decide)
  exact ⟨(h.2.2.2.1 (by decide)).1, (h.2.2.2.2.2.1 (by decide)).1,
    (h.2.2.2.2.2.2.2.2 (Or.inr rfl)).1⟩

/-- C8: a RESTORE-held digit-9 event toggles the video mode (1 becomes 0,
0 becomes 1), persists the new mode at store offset 2, and leaves the
Kernal selection, ScanActive and their store bytes unchanged; a second
digit-9 event restores the original mode with selection and ScanActive
again untouched. -/
theorem keyBlock_digit9_toggles (s : MachineState) (c2 : Nat) (b2 : Bool)
    (hn : s.numPressed = true) (hr : s.restore_found = true)
    (hkey : s.key = 128)
    (hd : computeKey 128 s.colData s.numOdd = 9)
    (hm : s.np_mode = 0 ∨ s.np_mode = 1)
    (hd2 : computeKey 128 c2 b2 = 9) :
    (keyBlock s).1.np_mode = 1 - s.np_mode ∧
    (keyBlock s).1.e2 = 1 - s.np_mode ∧
    (keyBlock s).1.kernal_num = s.kernal_num ∧
    (keyBlock s).1.kernal_addr = s.kernal_addr ∧
    (keyBlock s).1.scan_active = s.scan_active ∧
    (keyBlock s).1.e0 = s.e0 ∧
    (keyBlock s).1.e1 = s.e1 ∧
    (keyBlock s).2 = Ev.eWrite NPModeSlot (1 - s.np_mode) ::
      (systemRESET ++ SetVideoBits (1 - s.np_mode) ++ [Ev.delayMs 2000]
        ++ systemUNRESET ++ [Ev.delayMs 2000]) ∧
    (keyBlock (recapture (keyBlock s).1 c2 b2)).1.np_mode = s.np_mode ∧
    (keyBlock (recapture (keyBlock s).1 c2 b2)).1.kernal_num = s.kernal_num ∧
    (keyBlock (recapture (keyBlock s).1 c2 b2)).1.scan_active = s.scan_active ∧
    (keyBlock (recapture (keyBlock s).1 c2 b2)).1.e0 = s.e0 ∧
    (keyBlock (recapture (keyBlock s).1 c2 b2)).1.e1 = s.e1 := by
  have hk : computeKey s.key s.colData s.numOdd = 9 := by rw [hkey]; exact hd
  rcases hm with h | h <;>
    simp +decide [keyBlock, recapture, hn, hr, hk, hd2, SwitchVideo, h]

/-- Witness for `keyBlock_digit9_toggles`: two digit-9 gestures (snapshot
23 on the odd row) from `sPress5`'s configuration. -/
theorem keyBlock_digit9_toggles_witness :
    (keyBlock { sPress5 with colData := 23 }).1.np_mode = 0 ∧
    (keyBlock (recapture (keyBlock { sPress5 with colData := 23 }).1 23 true)).1.np_mode = 1 := by
  have h := keyBlock_digit9_toggles { sPress5 with colData := 23 } 23 true
    rfl rfl rfl (by decide) (Or.inr rfl) (by decide)
  exact ⟨h.1, h.2.2.2.2.2.2.2.2.1⟩

/-- C9: at most one pending key event exists: a row interrupt arriving
while the pending flag is set changes nothing (snapshot, parity and flag
kept, so the later decode equals the first snapshot's decode), and a
handler sets the pending flag only when the captured snapshot is neither
all-high nor all-low. -/
theorem isr_single_slot (t : MachineState) (p1 p2 : Nat)
    (ht : t.numPressed = true) :
    ISR_Row0 t p1 = t ∧ ISR_Row3 t p1 = t ∧
    (∀ s : MachineState, ∀ q : Nat, (ISR_Row0 s q).numPressed = true →
      s.numPressed = true ∨ (q &&& 31 ≠ 31 ∧ q &&& 31 ≠ 0)) ∧
    (∀ s : MachineState, ∀ q : Nat, (ISR_Row3 s q).numPressed = true →
      s.numPressed = true ∨ (q &&& 31 ≠ 31 ∧ q &&& 31 ≠ 0)) ∧
    computeKey 128 (ISR_Row3 t p2).colData (ISR_Row3 t p2).numOdd
      = computeKey 128 t.colData t.numOdd := by
  refine ⟨by simp [ISR_Row0, ht], by simp [ISR_Row3, ht], ?_, ?_,
    by simp [ISR_Row3, ht]⟩
  · intro s q h
    by_cases hs : s.numPressed
    · exact Or.inl hs
    · right
      by_cases hq : q &&& 31 ≠ 31 ∧ q &&& 31 ≠ 0
      · exact hq
      · simp [ISR_Row0, hs, hq] at h
  · intro s q h
    by_cases hs : s.numPressed
    · exact Or.inl hs
    · right
      by_cases hq : q &&& 31 ≠ 31 ∧ q &&& 31 ≠ 0
      · exact hq
      · simp [ISR_Row3, hs, hq] at h

/-- Witness for `isr_single_slot`: a second interrupt with snapshot 27
arriving while `sPress5`'s event is still pending is dropped. -/
theorem isr_single_slot_witness :
    ISR_Row0 sPress5 27 = sPress5 ∧ ISR_Row3 sPress5 27 = sPress5 :=
  ⟨(isr_single_slot sPress5 27 27 rfl).1, (isr_single_slot sPress5 27 27 rfl).2.1⟩

/-- C10: once the RESTORE countdown has reached zero with the key still
held, the tick runs the host reset/un-reset sequence, resets the scan
countdown and clears the liveness flag (whatever `scan_active` is), and
leaves the RESTORE countdown at zero — so the next tick with the key
still held runs the sequence again; the countdown is re-armed to its
default only when the key is released. -/
theorem restore_longpress_repeats (s : MachineState)
    (hc : s.restore_counter = 0) :
    (restoreBlock s false).2 = systemRESET ++ [Ev.delayMs 2000] ++ systemUNRESET ∧
    (restoreBlock s false).1.restore_counter = 0 ∧
    (restoreBlock s false).1.restore_found = true ∧
    (restoreBlock s false).1.scan_counter = Default_Scan_Count ∧
    (restoreBlock s false).1.scan_found = false ∧
    (restoreBlock s false).1.scan_active = s.scan_active ∧
    (restoreBlock (restoreBlock s false).1 false).2
      = systemRESET ++ [Ev.delayMs 2000] ++ systemUNRESET ∧
    (restoreBlock s true).1.restore_counter = Default_Restore_Count := by
  simp +decide [restoreBlock, hc]

/-- Witness for `restore_longpress_repeats`: `sTimeout` with the RESTORE
countdown elapsed and scanning disabled. -/
theorem restore_longpress_repeats_witness :
    (restoreBlock { sTimeout with restore_counter := 0, scan_active := 0 } false).2
      = systemRESET ++ [Ev.delayMs 2000] ++ systemUNRESET ∧
    (restoreBlock { sTimeout with restore_counter := 0, scan_active := 0 } false).1.scan_found
      = false := by
  have h := restore_longpress_repeats
    { sTimeout with restore_counter := 0, scan_active := 0 } rfl
  exact ⟨h.1, h.2.2.2.2.1⟩

/-- C7 counterexample: right after `systemRESET` completes — inside the
asserted phase of every Reset Sequencer run starting from the normal
running pin configuration — the host-reset line is asserted (HIGH) yet
configured as an INPUT, so it is not the case that each reset line's
direction is OUTPUT exactly while that line is asserted. -/
theorem reset_dirs_cex :
    ¬ outputIffAsserted (runEvs runningConf systemRESET) := by
  decide

/-- C7 amended: throughout the asserted window of a Reset Sequencer run —
from the completion of `systemRESET` through the address-bit writes, the
2000ms settle and the 200ms buffer, up to the first release write of
`systemUNRESET` (`bothAssertedPhase` has 5 events, hence `i ≤ 5`) — the
peripheral (EXROM) reset line is asserted (LOW) and configured OUTPUT
while the host reset line is asserted (HIGH) and configured INPUT; after
`systemUNRESET` completes, the peripheral line is de-asserted and INPUT
and the host line is de-asserted and OUTPUT. The OUTPUT-while-asserted
discipline of the claim holds for the peripheral line only; the host line
has the inverse correlation. -/
theorem reset_dirs_amended (addr i : Nat) (h8 : addr < 8) (hi : i ≤ 5) :
    ((runEvs (runEvs runningConf systemRESET)
        (List.take i (bothAssertedPhase addr))).level Pin.C64RES = true ∧
     (runEvs (runEvs runningConf systemRESET)
        (List.take i (bothAssertedPhase addr))).output Pin.C64RES = false ∧
     (runEvs (runEvs runningConf systemRESET)
        (List.take i (bothAssertedPhase addr))).level Pin.EXROMRES = false ∧
     (runEvs (runEvs runningConf systemRESET)
        (List.take i (bothAssertedPhase addr))).output Pin.EXROMRES = true) ∧
    ((runEvs runningConf (systemRESET ++ SetAddressBits addr
        ++ [Ev.delayMs 2000] ++ systemUNRESET)).level Pin.C64RES = false ∧
     (runEvs runningConf (systemRESET ++ SetAddressBits addr
        ++ [Ev.delayMs 2000] ++ systemUNRESET)).output Pin.C64RES = true ∧
     (runEvs runningConf (systemRESET ++ SetAddressBits addr
        ++ [Ev.delayMs 2000] ++ systemUNRESET)).level Pin.EXROMRES = true ∧
     (runEvs runningConf (systemRESET ++ SetAddressBits addr
        ++ [Ev.delayMs 2000] ++ systemUNRESET)).output Pin.EXROMRES = false) := by
  interval_cases addr <;> interval_cases i <;> decide

/-- Witness for `reset_dirs_amended` at bank address 0 and the start of
the asserted window. -/
theorem reset_dirs_amended_witness :
    (runEvs (runEvs runningConf systemRESET)
      (List.take 0 (bothAssertedPhase 0))).output Pin.EXROMRES = true :=
  (reset_dirs_amended 0 0 (by decide) (by decide)).1.2.2.2

end C64KRV
